import Mathlib

/-!
Verification development for the BentoML cloud CLI (`src/bentoml_cli/cloud.py`).

The `login` command and the context-listing command are embedded shallowly:
interactive prompts, port reservation, the browser opener, the callback
listener and the remote validator are modelled as an oracle environment
(`LoginEnv`), and a run of `login` is a list of observable events (prompts,
port lifecycle, printed messages, store mutations) together with a result
describing how the Python function terminated (normal return, the early
`return` in the browser error path, or an exception escaping the function).
-/

/-- A user record returned by `RestApiClient.v1.get_current_user`; `login`
only reads its `email` field. -/
structure User where
  email : String
deriving Repr, DecidableEq

/-- An organization record returned by
`RestApiClient.v1.get_current_organization`; `login` only checks it for
nullness. -/
structure Organization where
  orgName : String
deriving Repr, DecidableEq

/-- `CloudRESTApiClientError` from `bentoml.exceptions`: an error raised by
the REST client, carrying an HTTP-style `error_code`. -/
structure CloudRESTApiClientError where
  error_code : Nat
deriving Repr, DecidableEq

/-- `CloudClientContext` from `bentoml._internal.cloud.config`: a named
credential profile, exactly the four fields `login` constructs. -/
structure CloudClientContext where
  name : String
  endpoint : String
  api_token : String
  email : String
deriving Repr, DecidableEq

/-- `CloudClientConfig` from `bentoml._internal.cloud.config`: the context
store, an ordered sequence of contexts plus the current-context pointer. -/
structure CloudClientConfig where
  contexts : List CloudClientContext
  current_context_name : String
deriving Repr, DecidableEq

/-- Modelled from the spec: the store's default-context-name constant
(`default_context_name` in `bentoml._internal.cloud.config`, which is not
under `src/`). -/
def default_context_name : String := "default"

/-- Modelled from the spec: `add_context` of the Context Store
(`bentoml._internal.cloud.config`, not under `src/`): upsert-by-name —
replace a context with the same name in place, otherwise append — and always
set the new context as current. -/
def add_context (ctx : CloudClientContext) (cfg : CloudClientConfig) :
    CloudClientConfig :=
  { contexts :=
      if cfg.contexts.any (fun c => c.name == ctx.name) then
        cfg.contexts.map (fun c => if c.name == ctx.name then ctx else c)
      else
        cfg.contexts ++ [ctx],
    current_context_name := ctx.name }

/-- The `--context` value carried by `SharedOptions` (`shared_options.cloud_context`). -/
structure SharedOptions where
  cloud_context : Option String
deriving Repr, DecidableEq

/-- The method chosen at the `inquirer.select` prompt: the fixed
two-alternative enumeration offered by `login`. -/
inductive Choice where
  | create
  | paste
deriving Repr, DecidableEq

deriving instance DecidableEq for Except

/-- Responses of the remote validator bound to the session's
`(endpoint, api_token)`: each call either raises a
`CloudRESTApiClientError` or returns a possibly-null record. -/
structure ValidatorEnv where
  get_current_user : Except CloudRESTApiClientError (Option User)
  get_current_organization : Except CloudRESTApiClientError (Option Organization)
deriving Repr, DecidableEq

/-- The oracle environment for one run of `login`: the interactive answers
and external outcomes the code consumes.  `confirmAnswer` is the answer to
`Confirm.ask`; `waitResult` is what
`callback_server.wait_indefinitely_for_code()` does (raise, return `None`,
or return a code). -/
structure LoginEnv where
  choice : Choice
  port : Nat
  confirmAnswer : Bool
  openResult : Bool
  waitResult : Except String (Option String)
  pastedToken : String
  validator : ValidatorEnv
deriving Repr, DecidableEq

/-- Observable events of a `login` run, in program order. -/
inductive Event where
  | promptMethod
  | reservePort (port : Nat)
  | releasePort (port : Nat)
  | createListener (port : Nat)
  | confirmAsk (msg : String)
  | openBrowser (url : String)
  | printMsg (msg : String)
  | waitForCode
  | raised (msg : String)
  | promptToken
  | getUser
  | getOrg
  | addContext (ctx : CloudClientContext)
deriving Repr, DecidableEq

/-- How the Python `login` function terminated. -/
inductive LoginResult where
  | done
  | earlyReturn
  | uncaughtCLIException (msg : String)
deriving Repr, DecidableEq

/-- Python `endpoint.rstrip("/")`: drop every trailing `'/'`. -/
def rstripSlash (s : String) : String :=
  String.mk ((s.toList.reverse.dropWhile (fun c => c == '/')).reverse)

/-- Hexadecimal digit used by percent-encoding. -/
def hexDigit (n : Nat) : Char :=
  if n < 10 then Char.ofNat (48 + n) else Char.ofNat (55 + n)

/-- `urllib.parse.quote` on one character: alphanumerics, `_.-~` and the
default safe character `/` pass through; everything else (ASCII) is
percent-encoded. -/
def quoteChar (c : Char) : String :=
  if c.isAlphanum || c == '_' || c == '.' || c == '-' || c == '~' || c == '/' then
    String.mk [c]
  else
    String.mk ['%', hexDigit (c.toNat / 16 % 16), hexDigit (c.toNat % 16)]

/-- `urllib.parse.quote` with the default safe set, over ASCII inputs. -/
def urlQuote (s : String) : String :=
  String.join (s.toList.map quoteChar)

/-- Modelled from the spec: the callback listener
(`AuthCallbackHttpServer`, in `bentoml_cli/auth_server.py`, not under
`src/`) exposes a `callback_url` for the port it was given. -/
def callback_url (port : Nat) : String :=
  "http://127.0.0.1:" ++ toString port ++ "/callback"

/-- `baseURL` in the browser branch: the right-stripped endpoint followed by
`/api_tokens`. -/
def baseURLOf (endpoint : String) : String :=
  rstripSlash endpoint ++ "/api_tokens"

/-- `authURL` in the browser branch: the token-creation page with the
URL-encoded callback address as the `callback` query parameter. -/
def authURLOf (endpoint : String) (port : Nat) : String :=
  baseURLOf endpoint ++ "?callback=" ++ urlQuote (callback_url port)

/-- The browser branch of `login` (`choice == "create"`): reserve a port
(the `ExitStack` `with` block closes immediately, so the reservation is
released right away), construct the listener, build the auth URL, confirm,
attempt to open the browser, then wait for the callback code.  Returns the
events together with `some (endpoint', code)` on success — `endpoint'` being
the right-stripped endpoint the rest of `login` continues with — or `none`
when the `except Exception` handler printed its message and `login`
returned. -/
def browserFlow (endpoint : String) (env : LoginEnv) :
    List Event × Option (String × String) :=
  let port := env.port
  let ep := rstripSlash endpoint
  let authURL := authURLOf endpoint port
  let pre :=
    [Event.reservePort port, Event.releasePort port, Event.createListener port,
     Event.confirmAsk ("Press Enter to open [blue]" ++ authURL ++ "[/] in your browser..."),
     Event.openBrowser authURL,
     Event.printMsg (if env.openResult then
       "✅ Opened [blue]" ++ authURL ++ "[/] in your web browser."
     else
       "🚨 Failed to open browser. Try create a new API token at " ++ baseURLOf endpoint),
     Event.waitForCode]
  match env.waitResult with
  | Except.error msg =>
      (pre ++ [Event.raised msg,
               Event.printMsg "🚨 Error accquiring token from web browser"], none)
  | Except.ok none =>
      (pre ++ [Event.raised "No code could be obtained from browser callback page",
               Event.printMsg "🚨 Error accquiring token from web browser"], none)
  | Except.ok (some code) => (pre, some (ep, code))

/-- The context name `login` uses: the `--context` override when given,
otherwise `default_context_name`. -/
def contextName (cloud_context : Option String) : String :=
  match cloud_context with
  | some n => n
  | none => default_context_name

/-- The message printed by the `except CloudRESTApiClientError` handler of
`login`: the 401 bad-credentials message tied to the endpoint's
token-creation page, or the raw status code for any other error. -/
def restErrorMsg (endpoint : String) (e : CloudRESTApiClientError) : String :=
  if e.error_code == 401 then
    "🚨 Error validating token: HTTP 401: Bad credentials (" ++ endpoint ++ "/api-token)"
  else
    "✗ Error validating token: HTTP " ++ toString e.error_code

/-- The `try:` block of `login` plus its `except CloudRESTApiClientError`
handler: fetch the current user, check for null (raising `CLIException`,
which the handler does not catch), fetch the organization, check for null,
then construct the context, call `add_context` and print the two success
messages. -/
def validateToken (cloud_context : Option String) (endpoint api_token : String)
    (v : ValidatorEnv) : List Event × LoginResult :=
  match v.get_current_user with
  | Except.error e =>
      ([Event.getUser, Event.printMsg (restErrorMsg endpoint e)], LoginResult.done)
  | Except.ok none =>
      ([Event.getUser, Event.raised "current user is not found"],
       LoginResult.uncaughtCLIException "current user is not found")
  | Except.ok (some user) =>
      match v.get_current_organization with
      | Except.error e =>
          ([Event.getUser, Event.getOrg, Event.printMsg (restErrorMsg endpoint e)],
           LoginResult.done)
      | Except.ok none =>
          ([Event.getUser, Event.getOrg, Event.raised "current organization is not found"],
           LoginResult.uncaughtCLIException "current organization is not found")
      | Except.ok (some _org) =>
          let ctx : CloudClientContext :=
            { name := contextName cloud_context,
              endpoint := endpoint,
              api_token := api_token,
              email := user.email }
          ([Event.getUser, Event.getOrg, Event.addContext ctx,
            Event.printMsg ("✅ Configured BentoCloud credentials (current-context: "
              ++ ctx.name ++ ")"),
            Event.printMsg ("✅ Logged in as [blue]" ++ user.email ++ "[/] at [blue]"
              ++ endpoint ++ "[/]")],
           LoginResult.done)

/-- The `login` command of `src/bentoml_cli/cloud.py`.  `api_token = ""`
models Python's falsy token (unset or empty), which triggers the
method-selection prompt; otherwise control goes straight to validation. -/
def login (shared_options : SharedOptions) (endpoint api_token : String)
    (env : LoginEnv) : List Event × LoginResult :=
  if api_token = "" then
    match env.choice with
    | Choice.create =>
        match browserFlow endpoint env with
        | (evs, none) => (Event.promptMethod :: evs, LoginResult.earlyReturn)
        | (evs, some (ep, code)) =>
            let rest := validateToken shared_options.cloud_context ep code env.validator
            (Event.promptMethod :: evs ++ rest.1, rest.2)
    | Choice.paste =>
        let rest := validateToken shared_options.cloud_context endpoint
          env.pastedToken env.validator
        (Event.promptMethod :: Event.promptToken :: rest.1, rest.2)
  else
    validateToken shared_options.cloud_context endpoint api_token env.validator

/-- Replay the store mutations of a trace on a store. -/
def runStore : List Event → CloudClientConfig → CloudClientConfig
  | [], cfg => cfg
  | Event.addContext ctx :: rest, cfg => runStore rest (add_context ctx cfg)
  | _ :: rest, cfg => runStore rest cfg

/-- The `list_context` command of `src/bentoml_cli/cloud.py`:
`[i.name for i in config.contexts]`. -/
def list_context (cfg : CloudClientConfig) : List String :=
  cfg.contexts.map (fun i => i.name)

/-- Modelled from the spec: the CLI boundary (`BentoMLCommandGroup` in
`bentoml_cli/utils.py`, not under `src/`) converts a `CLIException`
escaping a command into a user-facing error message instead of an unhandled
fault. -/
def cliBoundary (r : List Event × LoginResult) : List Event × Bool :=
  match r.2 with
  | LoginResult.uncaughtCLIException msg =>
      (r.1 ++ [Event.printMsg ("Error: " ++ msg)], false)
  | _ => (r.1, false)

/-! ### Helper lemmas -/

theorem runStore_eq_of_no_add (evs : List Event) :
    ∀ cfg : CloudClientConfig,
      (∀ ctx, Event.addContext ctx ∉ evs) → runStore evs cfg = cfg := by
  induction evs with
  | nil => intro cfg _; rfl
  | cons e rest ih =>
      intro cfg h
      cases e <;> simp only [runStore] <;>
        first
          | exact absurd (List.mem_cons_self _ _) (h _)
          | exact ih cfg fun ctx hm => h ctx (List.mem_cons_of_mem _ hm)

/-- Exhaustive description of `validateToken`: its value in each of the five
branches of the validator oracle. -/
theorem validateToken_cases (cc : Option String) (ep tok : String) (v : ValidatorEnv) :
    (∃ e, v.get_current_user = Except.error e ∧
      validateToken cc ep tok v =
        ([Event.getUser, Event.printMsg (restErrorMsg ep e)], LoginResult.done))
    ∨ (v.get_current_user = Except.ok none ∧
      validateToken cc ep tok v =
        ([Event.getUser, Event.raised "current user is not found"],
         LoginResult.uncaughtCLIException "current user is not found"))
    ∨ (∃ u, v.get_current_user = Except.ok (some u) ∧
        ((∃ e, v.get_current_organization = Except.error e ∧
          validateToken cc ep tok v =
            ([Event.getUser, Event.getOrg, Event.printMsg (restErrorMsg ep e)],
             LoginResult.done))
        ∨ (v.get_current_organization = Except.ok none ∧
          validateToken cc ep tok v =
            ([Event.getUser, Event.getOrg,
              Event.raised "current organization is not found"],
             LoginResult.uncaughtCLIException "current organization is not found"))
        ∨ (∃ o, v.get_current_organization = Except.ok (some o) ∧
          validateToken cc ep tok v =
            ([Event.getUser, Event.getOrg,
              Event.addContext
                { name := contextName cc, endpoint := ep, api_token := tok,
                  email := u.email },
              Event.printMsg ("✅ Configured BentoCloud credentials (current-context: "
                ++ contextName cc ++ ")"),
              Event.printMsg ("✅ Logged in as [blue]" ++ u.email ++ "[/] at [blue]"
                ++ ep ++ "[/]")],
             LoginResult.done)))) := by
  rcases hu : v.get_current_user with e | u
  · exact Or.inl ⟨e, rfl, by simp [validateToken, hu]⟩
  · rcases u with _ | u
    · exact Or.inr (Or.inl ⟨rfl, by simp [validateToken, hu]⟩)
    · refine Or.inr (Or.inr ⟨u, rfl, ?_⟩)
      rcases ho : v.get_current_organization with e | o
      · exact Or.inl ⟨e, rfl, by simp [validateToken, hu, ho]⟩
      · rcases o with _ | o
        · exact Or.inr (Or.inl ⟨rfl, by simp [validateToken, hu, ho]⟩)
        · exact Or.inr (Or.inr ⟨o, rfl, by simp [validateToken, hu, ho]⟩)

theorem promptMethod_not_mem_validateToken (cc : Option String) (ep tok : String)
    (v : ValidatorEnv) : Event.promptMethod ∉ (validateToken cc ep tok v).1 := by
  rcases validateToken_cases cc ep tok v with ⟨e, _, h⟩ | ⟨_, h⟩ |
    ⟨u, _, ⟨e, _, h⟩ | ⟨_, h⟩ | ⟨o, _, h⟩⟩ <;> simp [h]

theorem releasePort_not_mem_validateToken (cc : Option String) (ep tok : String)
    (v : ValidatorEnv) (q : Nat) : Event.releasePort q ∉ (validateToken cc ep tok v).1 := by
  rcases validateToken_cases cc ep tok v with ⟨e, _, h⟩ | ⟨_, h⟩ |
    ⟨u, _, ⟨e, _, h⟩ | ⟨_, h⟩ | ⟨o, _, h⟩⟩ <;> simp [h]

theorem addContext_mem_validateToken (cc : Option String) (ep tok : String)
    (v : ValidatorEnv) (ctx : CloudClientContext)
    (h : Event.addContext ctx ∈ (validateToken cc ep tok v).1) :
    ∃ u o, v.get_current_user = Except.ok (some u)
      ∧ v.get_current_organization = Except.ok (some o)
      ∧ ctx = { name := contextName cc, endpoint := ep, api_token := tok,
                email := u.email } := by
  rcases validateToken_cases cc ep tok v with ⟨e, _, hv⟩ | ⟨_, hv⟩ |
    ⟨u, hu, ⟨e, _, hv⟩ | ⟨_, hv⟩ | ⟨o, ho, hv⟩⟩ <;> rw [hv] at h <;> simp at h
  exact ⟨u, o, hu, ho, h⟩

theorem login_of_token (so : SharedOptions) (ep tok : String) (env : LoginEnv)
    (htok : tok ≠ "") :
    login so ep tok env = validateToken so.cloud_context ep tok env.validator := by
  simp only [login, if_neg htok]

/-! ### Sample inputs for concrete witnesses -/

/-- A validator oracle that succeeds with a fixed user and organization. -/
def sampleValidatorOk : ValidatorEnv :=
  { get_current_user := Except.ok (some { email := "a@b.com" }),
    get_current_organization := Except.ok (some { orgName := "acme" }) }

/-- A validator oracle whose first call raises HTTP 401. -/
def sampleValidator401 : ValidatorEnv :=
  { get_current_user := Except.error { error_code := 401 },
    get_current_organization := Except.ok (some { orgName := "acme" }) }

/-- A validator oracle that returns a null current user. -/
def sampleValidatorNoUser : ValidatorEnv :=
  { get_current_user := Except.ok none,
    get_current_organization := Except.ok (some { orgName := "acme" }) }

/-- A sample oracle environment whose validator succeeds. -/
def sampleEnvOk : LoginEnv :=
  { choice := Choice.create, port := 7777, confirmAnswer := true,
    openResult := true, waitResult := Except.ok (some "codeX"),
    pastedToken := "pasted", validator := sampleValidatorOk }

/-- A sample oracle environment whose validator raises HTTP 401. -/
def sampleEnv401 : LoginEnv :=
  { sampleEnvOk with validator := sampleValidator401 }

/-- A sample oracle environment whose validator returns a null user. -/
def sampleEnvNoUser : LoginEnv :=
  { sampleEnvOk with validator := sampleValidatorNoUser }

/-- A sample oracle environment in which the callback listener returns no
code. -/
def sampleEnvNoCode : LoginEnv :=
  { sampleEnvOk with waitResult := Except.ok none }

/-- A sample context store. -/
def sampleCfg : CloudClientConfig :=
  { contexts := [], current_context_name := "default" }

/-! ### Claim theorems -/

/-- C9: For every store state, the `list-context` command returns exactly
the names of the stored contexts, in store order, and nothing else — in
particular its output is unchanged under any rewriting of the secret
tokens; for a store with contexts named `["default","staging"]` it returns
exactly `["default","staging"]` in that order. -/
theorem list_context_is_names_in_order (cfg : CloudClientConfig) :
    list_context cfg = cfg.contexts.map (fun c => c.name)
    ∧ (∀ g : CloudClientContext → String,
        list_context
          { contexts := cfg.contexts.map (fun c => { c with api_token := g c }),
            current_context_name := cfg.current_context_name }
          = list_context cfg)
    ∧ list_context
        { contexts :=
            [{ name := "default", endpoint := "https://x.io", api_token := "t1",
               email := "a@b.com" },
             { name := "staging", endpoint := "https://y.io", api_token := "t2",
               email := "c@d.com" }],
          current_context_name := "default" } = ["default", "staging"] := by
  refine ⟨rfl, ?_, rfl⟩
  intro g
  simp [list_context, List.map_map, Function.comp]

/-- C6: whenever an `api_token` is already supplied (non-falsy), `login`
skips the method-selection prompt entirely — the run equals the validation
phase alone, and no `promptMethod` event occurs. -/
theorem login_token_skips_method_prompt (so : SharedOptions) (ep tok : String)
    (env : LoginEnv) (htok : tok ≠ "") :
    login so ep tok env = validateToken so.cloud_context ep tok env.validator
    ∧ Event.promptMethod ∉ (login so ep tok env).1 := by
  have h := login_of_token so ep tok env htok
  exact ⟨h, by rw [h]; exact promptMethod_not_mem_validateToken _ _ _ _⟩

theorem login_token_skips_method_prompt_witness :
    ("tok1" : String) ≠ ""
    ∧ (login ⟨none⟩ "https://x.io" "tok1" sampleEnvOk
        = validateToken none "https://x.io" "tok1" sampleEnvOk.validator
      ∧ Event.promptMethod ∉ (login ⟨none⟩ "https://x.io" "tok1" sampleEnvOk).1) :=
  ⟨by decide,
   login_token_skips_method_prompt ⟨none⟩ "https://x.io" "tok1" sampleEnvOk (by decide)⟩

/-- C10: the answer given to the pre-open confirmation prompt has no effect
on behaviour — two runs differing only in `confirmAnswer` are identical —
and in the browser path the browser open is attempted regardless. -/
theorem login_confirm_answer_noninterference (so : SharedOptions) (ep tok : String)
    (env : LoginEnv) (b b' : Bool) :
    login so ep tok { env with confirmAnswer := b }
      = login so ep tok { env with confirmAnswer := b' }
    ∧ (tok = "" → env.choice = Choice.create →
        Event.openBrowser (authURLOf ep env.port)
          ∈ (login so ep tok { env with confirmAnswer := b }).1) := by
  constructor
  · by_cases ht : tok = "" <;>
      cases hch : env.choice <;>
      rcases hw : env.waitResult with m | (_ | c) <;>
      simp [login, browserFlow, ht, hch, hw]
  · intro ht hc
    rcases hw : env.waitResult with m | (_ | c) <;>
      simp [login, browserFlow, ht, hc, hw]

theorem login_confirm_answer_noninterference_witness :
    (("" : String) = "" ∧ sampleEnvOk.choice = Choice.create)
    ∧ (login ⟨none⟩ "https://x.io" ""
        { sampleEnvOk with confirmAnswer := true }
        = login ⟨none⟩ "https://x.io" "" { sampleEnvOk with confirmAnswer := false }
      ∧ (("" : String) = "" → sampleEnvOk.choice = Choice.create →
          Event.openBrowser (authURLOf "https://x.io" sampleEnvOk.port)
            ∈ (login ⟨none⟩ "https://x.io" ""
                { sampleEnvOk with confirmAnswer := true }).1)) :=
  ⟨⟨rfl, rfl⟩,
   login_confirm_answer_noninterference ⟨none⟩ "https://x.io" "" sampleEnvOk true false⟩

/-- C2: if token validation raises an error with status 401, `login` prints
the bad-credentials message referencing the endpoint's token-creation page
(`endpoint ++ "/api-token"`), no context is added, the store is unchanged,
and the function returns normally (the session simply failed). -/
theorem login_401_reports_bad_credentials (so : SharedOptions) (ep tok : String)
    (env : LoginEnv) (e : CloudRESTApiClientError) (cfg : CloudClientConfig)
    (htok : tok ≠ "") (h401 : e.error_code = 401)
    (he : env.validator.get_current_user = Except.error e
      ∨ ∃ u, env.validator.get_current_user = Except.ok (some u)
          ∧ env.validator.get_current_organization = Except.error e) :
    Event.printMsg ("🚨 Error validating token: HTTP 401: Bad credentials ("
        ++ ep ++ "/api-token)") ∈ (login so ep tok env).1
    ∧ (∀ ctx, Event.addContext ctx ∉ (login so ep tok env).1)
    ∧ runStore (login so ep tok env).1 cfg = cfg
    ∧ (login so ep tok env).2 = LoginResult.done := by
  rw [login_of_token so ep tok env htok]
  have hmsg : restErrorMsg ep e
      = "🚨 Error validating token: HTTP 401: Bad credentials (" ++ ep ++ "/api-token)" := by
    simp [restErrorMsg, h401]
  rcases he with hu | ⟨u, hu, ho⟩
  · have hv : validateToken so.cloud_context ep tok env.validator
        = ([Event.getUser, Event.printMsg (restErrorMsg ep e)], LoginResult.done) := by
      simp [validateToken, hu]
    rw [hv, hmsg]
    exact ⟨by simp, fun ctx => by simp, by simp [runStore], rfl⟩
  · have hv : validateToken so.cloud_context ep tok env.validator
        = ([Event.getUser, Event.getOrg, Event.printMsg (restErrorMsg ep e)],
           LoginResult.done) := by
      simp [validateToken, hu, ho]
    rw [hv, hmsg]
    exact ⟨by simp, fun ctx => by simp, by simp [runStore], rfl⟩

theorem login_401_reports_bad_credentials_witness :
    (("tok1" : String) ≠ ""
      ∧ ({ error_code := 401 } : CloudRESTApiClientError).error_code = 401
      ∧ sampleEnv401.validator.get_current_user
          = Except.error { error_code := 401 })
    ∧ (Event.printMsg ("🚨 Error validating token: HTTP 401: Bad credentials ("
          ++ "https://x.io" ++ "/api-token)")
        ∈ (login ⟨none⟩ "https://x.io" "tok1" sampleEnv401).1
      ∧ (∀ ctx, Event.addContext ctx ∉ (login ⟨none⟩ "https://x.io" "tok1" sampleEnv401).1)
      ∧ runStore (login ⟨none⟩ "https://x.io" "tok1" sampleEnv401).1 sampleCfg = sampleCfg
      ∧ (login ⟨none⟩ "https://x.io" "tok1" sampleEnv401).2 = LoginResult.done) :=
  ⟨⟨by decide, rfl, rfl⟩,
   login_401_reports_bad_credentials ⟨none⟩ "https://x.io" "tok1" sampleEnv401
     { error_code := 401 } sampleCfg (by decide) rfl (Or.inl rfl)⟩

/-- Master lemma: any `addContext` event in a `login` trace implies the
validator returned a non-null user and organization, and — in the browser
path — that a callback code was actually obtained. -/
theorem addContext_mem_login (so : SharedOptions) (ep tok : String) (env : LoginEnv)
    (ctx : CloudClientContext)
    (h : Event.addContext ctx ∈ (login so ep tok env).1) :
    (∃ u, env.validator.get_current_user = Except.ok (some u))
    ∧ (∃ o, env.validator.get_current_organization = Except.ok (some o))
    ∧ (tok = "" → env.choice = Choice.create →
        ∃ code, env.waitResult = Except.ok (some code)) := by
  by_cases ht : tok = ""
  · cases hch : env.choice
    · rcases hw : env.waitResult with m | oc
      · simp [login, browserFlow, ht, hch, hw] at h
      · rcases oc with _ | c
        · simp [login, browserFlow, ht, hch, hw] at h
        · simp [login, browserFlow, ht, hch, hw] at h
          rcases addContext_mem_validateToken _ _ _ _ _ h with ⟨u, o, hu, ho, _⟩
          exact ⟨⟨u, hu⟩, ⟨o, ho⟩, fun _ _ => ⟨c, rfl⟩⟩
    · simp [login, ht, hch] at h
      rcases addContext_mem_validateToken _ _ _ _ _ h with ⟨u, o, hu, ho, _⟩
      exact ⟨⟨u, hu⟩, ⟨o, ho⟩, fun _ hcc => nomatch hcc⟩
  · rw [login_of_token so ep tok env ht] at h
    rcases addContext_mem_validateToken _ _ _ _ _ h with ⟨u, o, hu, ho, _⟩
    exact ⟨⟨u, hu⟩, ⟨o, ho⟩, fun hcc => absurd hcc ht⟩

/-- C3: `add_context` happens only after both `get_current_user` and
`get_current_organization` returned non-null results; on every failure path
(missing code, exception while waiting, validation error, null user or
organization) the store is left untouched. -/
theorem login_store_gated_on_validation (so : SharedOptions) (ep tok : String)
    (env : LoginEnv) (cfg : CloudClientConfig) :
    (∀ ctx, Event.addContext ctx ∈ (login so ep tok env).1 →
        (∃ u, env.validator.get_current_user = Except.ok (some u))
        ∧ ∃ o, env.validator.get_current_organization = Except.ok (some o))
    ∧ (env.validator.get_current_user = Except.ok none →
        runStore (login so ep tok env).1 cfg = cfg)
    ∧ (env.validator.get_current_organization = Except.ok none →
        runStore (login so ep tok env).1 cfg = cfg)
    ∧ (∀ e, env.validator.get_current_user = Except.error e →
        runStore (login so ep tok env).1 cfg = cfg)
    ∧ (∀ e, env.validator.get_current_organization = Except.error e →
        runStore (login so ep tok env).1 cfg = cfg)
    ∧ (tok = "" → env.choice = Choice.create → env.waitResult = Except.ok none →
        runStore (login so ep tok env).1 cfg = cfg)
    ∧ (∀ m, tok = "" → env.choice = Choice.create →
        env.waitResult = Except.error m →
        runStore (login so ep tok env).1 cfg = cfg) := by
  refine ⟨fun ctx h => ⟨(addContext_mem_login so ep tok env ctx h).1,
      (addContext_mem_login so ep tok env ctx h).2.1⟩, ?_, ?_, ?_, ?_, ?_, ?_⟩
  · intro hu
    refine runStore_eq_of_no_add _ cfg fun ctx hm => ?_
    rcases (addContext_mem_login so ep tok env ctx hm).1 with ⟨u, hu2⟩
    rw [hu] at hu2; cases hu2
  · intro ho
    refine runStore_eq_of_no_add _ cfg fun ctx hm => ?_
    rcases (addContext_mem_login so ep tok env ctx hm).2.1 with ⟨o, ho2⟩
    rw [ho] at ho2; cases ho2
  · intro e hu
    refine runStore_eq_of_no_add _ cfg fun ctx hm => ?_
    rcases (addContext_mem_login so ep tok env ctx hm).1 with ⟨u, hu2⟩
    rw [hu] at hu2; cases hu2
  · intro e ho
    refine runStore_eq_of_no_add _ cfg fun ctx hm => ?_
    rcases (addContext_mem_login so ep tok env ctx hm).2.1 with ⟨o, ho2⟩
    rw [ho] at ho2; cases ho2
  · intro ht hc hw
    refine runStore_eq_of_no_add _ cfg fun ctx hm => ?_
    rcases (addContext_mem_login so ep tok env ctx hm).2.2 ht hc with ⟨c, hw2⟩
    rw [hw] at hw2; cases hw2
  · intro m ht hc hw
    refine runStore_eq_of_no_add _ cfg fun ctx hm => ?_
    rcases (addContext_mem_login so ep tok env ctx hm).2.2 ht hc with ⟨c, hw2⟩
    rw [hw] at hw2; cases hw2

theorem login_store_gated_on_validation_witness :
    sampleEnvNoUser.validator.get_current_user = Except.ok none
    ∧ runStore (login ⟨none⟩ "https://x.io" "tok1" sampleEnvNoUser).1 sampleCfg
        = sampleCfg :=
  ⟨rfl,
   (login_store_gated_on_validation ⟨none⟩ "https://x.io" "tok1" sampleEnvNoUser
      sampleCfg).2.1 rfl⟩

/-- C4: in the browser path, an absent (`None`) code fails the session with
the explicit "no code obtained" condition, an error message is surfaced,
and `login` returns early without touching the store; likewise any
exception raised while waiting. -/
theorem login_no_code_aborts (so : SharedOptions) (ep : String) (env : LoginEnv)
    (cfg : CloudClientConfig) (hc : env.choice = Choice.create) :
    (env.waitResult = Except.ok none →
        Event.raised "No code could be obtained from browser callback page"
            ∈ (login so ep "" env).1
        ∧ Event.printMsg "🚨 Error accquiring token from web browser"
            ∈ (login so ep "" env).1
        ∧ (login so ep "" env).2 = LoginResult.earlyReturn
        ∧ (∀ ctx, Event.addContext ctx ∉ (login so ep "" env).1)
        ∧ runStore (login so ep "" env).1 cfg = cfg)
    ∧ (∀ m, env.waitResult = Except.error m →
        Event.raised m ∈ (login so ep "" env).1
        ∧ Event.printMsg "🚨 Error accquiring token from web browser"
            ∈ (login so ep "" env).1
        ∧ (login so ep "" env).2 = LoginResult.earlyReturn
        ∧ (∀ ctx, Event.addContext ctx ∉ (login so ep "" env).1)
        ∧ runStore (login so ep "" env).1 cfg = cfg) := by
  constructor
  · intro hw
    refine ⟨by simp [login, browserFlow, hc, hw], by simp [login, browserFlow, hc, hw],
      by simp [login, browserFlow, hc, hw], fun ctx => by simp [login, browserFlow, hc, hw],
      by simp [login, browserFlow, hc, hw, runStore]⟩
  · intro m hw
    refine ⟨by simp [login, browserFlow, hc, hw], by simp [login, browserFlow, hc, hw],
      by simp [login, browserFlow, hc, hw], fun ctx => by simp [login, browserFlow, hc, hw],
      by simp [login, browserFlow, hc, hw, runStore]⟩

theorem login_no_code_aborts_witness :
    (sampleEnvNoCode.choice = Choice.create
      ∧ sampleEnvNoCode.waitResult = Except.ok none)
    ∧ (Event.raised "No code could be obtained from browser callback page"
        ∈ (login ⟨none⟩ "https://x.io" "" sampleEnvNoCode).1
      ∧ Event.printMsg "🚨 Error accquiring token from web browser"
        ∈ (login ⟨none⟩ "https://x.io" "" sampleEnvNoCode).1
      ∧ (login ⟨none⟩ "https://x.io" "" sampleEnvNoCode).2 = LoginResult.earlyReturn
      ∧ (∀ ctx, Event.addContext ctx
            ∉ (login ⟨none⟩ "https://x.io" "" sampleEnvNoCode).1)
      ∧ runStore (login ⟨none⟩ "https://x.io" "" sampleEnvNoCode).1 sampleCfg
          = sampleCfg) :=
  ⟨⟨rfl, rfl⟩,
   (login_no_code_aborts ⟨none⟩ "https://x.io" sampleEnvNoCode sampleCfg rfl).1 rfl⟩

/-- C5: a null user or organization fails `login` with a configuration-level
`CLIException` ("current user is not found" / "current organization is not
found") which is distinct from the authentication failure path: `login`
itself prints nothing (in particular not the 401 bad-credentials report),
the exception escapes to the CLI boundary, which converts it into a
user-facing message rather than an unhandled fault, and the store is
untouched. -/
theorem login_null_identity_is_config_error (so : SharedOptions) (ep tok : String)
    (env : LoginEnv) (cfg : CloudClientConfig) (htok : tok ≠ "") :
    (env.validator.get_current_user = Except.ok none →
        (login so ep tok env).2
            = LoginResult.uncaughtCLIException "current user is not found"
        ∧ (∀ s, Event.printMsg s ∉ (login so ep tok env).1)
        ∧ (cliBoundary (login so ep tok env)).2 = false
        ∧ Event.printMsg "Error: current user is not found"
            ∈ (cliBoundary (login so ep tok env)).1
        ∧ runStore (login so ep tok env).1 cfg = cfg)
    ∧ (∀ u, env.validator.get_current_user = Except.ok (some u) →
        env.validator.get_current_organization = Except.ok none →
        (login so ep tok env).2
            = LoginResult.uncaughtCLIException "current organization is not found"
        ∧ (∀ s, Event.printMsg s ∉ (login so ep tok env).1)
        ∧ (cliBoundary (login so ep tok env)).2 = false
        ∧ Event.printMsg "Error: current organization is not found"
            ∈ (cliBoundary (login so ep tok env)).1
        ∧ runStore (login so ep tok env).1 cfg = cfg) := by
  rw [login_of_token so ep tok env htok]
  constructor
  · intro hu
    have hv : validateToken so.cloud_context ep tok env.validator
        = ([Event.getUser, Event.raised "current user is not found"],
           LoginResult.uncaughtCLIException "current user is not found") := by
      simp [validateToken, hu]
    rw [hv]
    exact ⟨rfl, fun s => by simp, rfl, by simp [cliBoundary], by simp [runStore]⟩
  · intro u hu ho
    have hv : validateToken so.cloud_context ep tok env.validator
        = ([Event.getUser, Event.getOrg,
            Event.raised "current organization is not found"],
           LoginResult.uncaughtCLIException "current organization is not found") := by
      simp [validateToken, hu, ho]
    rw [hv]
    exact ⟨rfl, fun s => by simp, rfl, by simp [cliBoundary], by simp [runStore]⟩

theorem login_null_identity_is_config_error_witness :
    (("tok1" : String) ≠ ""
      ∧ sampleEnvNoUser.validator.get_current_user = Except.ok none)
    ∧ ((login ⟨none⟩ "https://x.io" "tok1" sampleEnvNoUser).2
          = LoginResult.uncaughtCLIException "current user is not found"
      ∧ (∀ s, Event.printMsg s ∉ (login ⟨none⟩ "https://x.io" "tok1" sampleEnvNoUser).1)
      ∧ (cliBoundary (login ⟨none⟩ "https://x.io" "tok1" sampleEnvNoUser)).2 = false
      ∧ Event.printMsg "Error: current user is not found"
          ∈ (cliBoundary (login ⟨none⟩ "https://x.io" "tok1" sampleEnvNoUser)).1
      ∧ runStore (login ⟨none⟩ "https://x.io" "tok1" sampleEnvNoUser).1 sampleCfg
          = sampleCfg) :=
  ⟨⟨by decide, rfl⟩,
   (login_null_identity_is_config_error ⟨none⟩ "https://x.io" "tok1" sampleEnvNoUser
      sampleCfg (by decide)).1 rfl⟩

/-- C7: on successful validation, `login` constructs a context whose name is
the explicit override when given and otherwise `default_context_name`, whose
endpoint and token are the session's, and whose email comes from the
validated user; it calls `add_context` with exactly that context and prints
the new current-context name and the authenticated email. -/
theorem login_success_persists_context (so : SharedOptions) (ep tok : String)
    (env : LoginEnv) (u : User) (o : Organization) (cfg : CloudClientConfig)
    (htok : tok ≠ "")
    (hu : env.validator.get_current_user = Except.ok (some u))
    (ho : env.validator.get_current_organization = Except.ok (some o)) :
    login so ep tok env =
      ([Event.getUser, Event.getOrg,
        Event.addContext
          { name := contextName so.cloud_context, endpoint := ep,
            api_token := tok, email := u.email },
        Event.printMsg ("✅ Configured BentoCloud credentials (current-context: "
          ++ contextName so.cloud_context ++ ")"),
        Event.printMsg ("✅ Logged in as [blue]" ++ u.email ++ "[/] at [blue]"
          ++ ep ++ "[/]")],
       LoginResult.done)
    ∧ runStore (login so ep tok env).1 cfg
        = add_context
            { name := contextName so.cloud_context, endpoint := ep,
              api_token := tok, email := u.email } cfg
    ∧ (∀ n, contextName (some n) = n)
    ∧ contextName none = default_context_name := by
  rw [login_of_token so ep tok env htok]
  have hv : validateToken so.cloud_context ep tok env.validator
      = ([Event.getUser, Event.getOrg,
          Event.addContext
            { name := contextName so.cloud_context, endpoint := ep,
              api_token := tok, email := u.email },
          Event.printMsg ("✅ Configured BentoCloud credentials (current-context: "
            ++ contextName so.cloud_context ++ ")"),
          Event.printMsg ("✅ Logged in as [blue]" ++ u.email ++ "[/] at [blue]"
            ++ ep ++ "[/]")],
         LoginResult.done) := by
    simp [validateToken, hu, ho]
  rw [hv]
  exact ⟨rfl, by simp [runStore], fun n => rfl, rfl⟩

theorem login_success_persists_context_witness :
    (("tok1" : String) ≠ ""
      ∧ sampleEnvOk.validator.get_current_user
          = Except.ok (some { email := "a@b.com" })
      ∧ sampleEnvOk.validator.get_current_organization
          = Except.ok (some { orgName := "acme" }))
    ∧ (login ⟨none⟩ "https://x.io" "tok1" sampleEnvOk =
        ([Event.getUser, Event.getOrg,
          Event.addContext
            { name := contextName none, endpoint := "https://x.io",
              api_token := "tok1", email := ("a@b.com" : String) },
          Event.printMsg ("✅ Configured BentoCloud credentials (current-context: "
            ++ contextName none ++ ")"),
          Event.printMsg ("✅ Logged in as [blue]" ++ "a@b.com" ++ "[/] at [blue]"
            ++ "https://x.io" ++ "[/]")],
         LoginResult.done)
      ∧ runStore (login ⟨none⟩ "https://x.io" "tok1" sampleEnvOk).1 sampleCfg
          = add_context
              { name := contextName none, endpoint := "https://x.io",
                api_token := "tok1", email := ("a@b.com" : String) } sampleCfg
      ∧ (∀ n, contextName (some n) = n)
      ∧ contextName none = default_context_name) :=
  ⟨⟨by decide, rfl, rfl⟩,
   login_success_persists_context ⟨none⟩ "https://x.io" "tok1" sampleEnvOk
     { email := "a@b.com" } { orgName := "acme" } sampleCfg (by decide) rfl rfl⟩

/-- C8: in the browser path the user is asked to confirm, then the browser
open is attempted regardless; its success or failure only selects the
reported message (failure points at the token-creation page), and in both
cases the flow continues to block waiting for the callback code. -/
theorem login_browser_open_nonfatal (so : SharedOptions) (ep : String) (env : LoginEnv)
    (hc : env.choice = Choice.create) :
    (login so ep "" env).1.take 8 =
      [Event.promptMethod, Event.reservePort env.port, Event.releasePort env.port,
       Event.createListener env.port,
       Event.confirmAsk ("Press Enter to open [blue]" ++ authURLOf ep env.port
         ++ "[/] in your browser..."),
       Event.openBrowser (authURLOf ep env.port),
       Event.printMsg (if env.openResult then
         "✅ Opened [blue]" ++ authURLOf ep env.port ++ "[/] in your web browser."
       else
         "🚨 Failed to open browser. Try create a new API token at " ++ baseURLOf ep),
       Event.waitForCode] := by
  rcases hw : env.waitResult with m | (_ | c) <;>
    simp [login, browserFlow, hc, hw]

theorem login_browser_open_nonfatal_witness :
    ({ sampleEnvNoCode with openResult := false }).choice = Choice.create
    ∧ (login ⟨none⟩ "https://x.io" "" { sampleEnvNoCode with openResult := false }).1.take 8 =
      [Event.promptMethod,
       Event.reservePort ({ sampleEnvNoCode with openResult := false }).port,
       Event.releasePort ({ sampleEnvNoCode with openResult := false }).port,
       Event.createListener ({ sampleEnvNoCode with openResult := false }).port,
       Event.confirmAsk ("Press Enter to open [blue]"
         ++ authURLOf "https://x.io" ({ sampleEnvNoCode with openResult := false }).port
         ++ "[/] in your browser..."),
       Event.openBrowser
         (authURLOf "https://x.io" ({ sampleEnvNoCode with openResult := false }).port),
       Event.printMsg (if ({ sampleEnvNoCode with openResult := false }).openResult then
         "✅ Opened [blue]"
           ++ authURLOf "https://x.io" ({ sampleEnvNoCode with openResult := false }).port
           ++ "[/] in your web browser."
       else
         "🚨 Failed to open browser. Try create a new API token at "
           ++ baseURLOf "https://x.io"),
       Event.waitForCode] :=
  ⟨rfl,
   login_browser_open_nonfatal ⟨none⟩ "https://x.io"
     { sampleEnvNoCode with openResult := false } rfl⟩

/-- C1 counterexample: in a concrete browser-path run (port 7777, listener
returning no code) the reserved port is released as the `ExitStack` block
closes — before the callback listener is constructed and before the session
starts waiting — so the reserved port does not stay held for the session
and is released while the wait is still ahead. -/
theorem login_port_released_early_counterexample :
    (login ⟨none⟩ "https://x.io" "" sampleEnvNoCode).1.take 3
      = [Event.promptMethod, Event.reservePort 7777, Event.releasePort 7777]
    ∧ Event.createListener 7777
        ∈ (login ⟨none⟩ "https://x.io" "" sampleEnvNoCode).1.drop 3
    ∧ Event.waitForCode
        ∈ (login ⟨none⟩ "https://x.io" "" sampleEnvNoCode).1.drop 3 := by
  refine ⟨?_, ?_, ?_⟩ <;> decide

/-- C1 (amended): in every browser-path run the reservation is released
immediately — the trace begins with reserve, release, then listener
construction — and afterwards no port release of any kind occurs on any
exit path (the orchestration performs no teardown while waiting or at
exit). -/
theorem login_port_release_discipline (so : SharedOptions) (ep : String)
    (env : LoginEnv) (hc : env.choice = Choice.create) :
    (login so ep "" env).1.take 4
      = [Event.promptMethod, Event.reservePort env.port, Event.releasePort env.port,
         Event.createListener env.port]
    ∧ (∀ q, Event.releasePort q ∉ (login so ep "" env).1.drop 4) := by
  rcases hw : env.waitResult with m | oc
  · exact ⟨by simp [login, browserFlow, hc, hw],
      fun q => by simp [login, browserFlow, hc, hw]⟩
  · rcases oc with _ | c
    · exact ⟨by simp [login, browserFlow, hc, hw],
        fun q => by simp [login, browserFlow, hc, hw]⟩
    · refine ⟨by simp [login, browserFlow, hc, hw], fun q => ?_⟩
      simp [login, browserFlow, hc, hw]
      exact releasePort_not_mem_validateToken _ _ _ _ q

theorem login_port_release_discipline_witness :
    sampleEnvNoCode.choice = Choice.create
    ∧ ((login ⟨none⟩ "https://x.io" "" sampleEnvNoCode).1.take 4
        = [Event.promptMethod, Event.reservePort sampleEnvNoCode.port,
           Event.releasePort sampleEnvNoCode.port,
           Event.createListener sampleEnvNoCode.port]
      ∧ (∀ q, Event.releasePort q
            ∉ (login ⟨none⟩ "https://x.io" "" sampleEnvNoCode).1.drop 4)) :=
  ⟨rfl, login_port_release_discipline ⟨none⟩ "https://x.io" sampleEnvNoCode rfl⟩
